import Mathlib

/-!
Shallow embedding of the scroll-synchronized trajectory engine of the
tripworldmap repository (src/components/TripViewer.tsx, src/components/StoryMap.tsx,
src/components/TripEditor.tsx, src/types.ts).

Conventions of the embedding:
* JavaScript numbers are modelled as rationals; all the arithmetic the
  engine performs on them (add, sub, mul, div, floor, %, round, min, max,
  comparisons) is exact on the inputs the engine feeds it.
* The JavaScript remainder `a % b` is used by the code only with `a >= 0`
  and `b > 0`, where it equals `a - b * floor (a / b)`; `jsMod` is defined
  by that formula.
* `new Date(s).getTime()` is environment-supplied (not part of the
  repository); the comparator is therefore parametrised by an abstract
  `parse : String -> Option Int`, where `none` models `NaN`.
  `localeCompare` is modelled as code-point lexicographic comparison.
* Stateful handlers (the scroll listeners) are modelled as pure functions
  from their inputs (scroll offset, viewport height, card rectangles) to a
  record of the state updates they perform; a field of value `none` means
  the handler leaves that piece of state unchanged.
-/

/-- TransportType from src/types.ts. -/
inductive TransportType where
  | CAR | WALK | TRAIN | PLANE | SHIP | BUS
deriving DecidableEq

/-- The fields of TripPoint (src/types.ts) that the trajectory engine reads. -/
structure TripPoint where
  id : String
  lat : ℚ
  lng : ℚ
  date : String
  transportToNext : TransportType
deriving DecidableEq

/-- Default TripPoint used as the `getD` fallback (never selected in-bounds). -/
def dfltPoint : TripPoint := ⟨"", 0, 0, "", TransportType.CAR⟩

/-- A kakao.maps.LatLng value: a latitude/longitude pair. -/
structure LatLng where
  lat : ℚ
  lng : ℚ
deriving DecidableEq

/-- Default LatLng used as the `getD` fallback. -/
def dfltLatLng : LatLng := ⟨0, 0⟩

/-- Sign of JavaScript `a.localeCompare(b)`, modelled as code-point
lexicographic comparison of the strings. -/
def strCmp (a b : String) : ℤ :=
  if a < b then -1 else if a = b then 0 else 1

/-- The string tie-break of `robustSort` (TripViewer.tsx lines 47-49 /
TripEditor.tsx lines 24-28): date string comparison, then id comparison. -/
def strTie (a b : TripPoint) : ℤ :=
  if strCmp a.date b.date ≠ 0 then strCmp a.date b.date else strCmp a.id b.id

/-- The comparator `robustSort` (TripViewer.tsx lines 41-50, duplicated in
TripEditor.tsx lines 14-29), parametrised by the environment's date parse
(`new Date(s).getTime()`, with `none` for `NaN`): if both dates parse and
the times differ, compare the times; otherwise compare the date strings,
then the ids. -/
def robustSort (parse : String → Option ℤ) (a b : TripPoint) : ℤ :=
  match parse a.date, parse b.date with
  | some timeA, some timeB =>
      if timeA ≠ timeB then timeA - timeB else strTie a b
  | _, _ => strTie a b

/-- Sorting a point list with the comparator, modelling
`[...trip.points].sort(robustSort)` (TripViewer.tsx line 127) as a
comparison sort with the non-strict relation `robustSort a b <= 0`. -/
def sortPoints (parse : String → Option ℤ) (l : List TripPoint) : List TripPoint :=
  l.insertionSort (fun a b => robustSort parse a b ≤ 0)

/-- JavaScript `a % b` on the non-negative inputs the engine uses
(`a >= 0`, `b > 0`). -/
def jsMod (a b : ℚ) : ℚ := a - b * ⌊a / b⌋

/-- Point on a quadratic Bezier curve at parameter t
(`getQuadraticBezierPoint`, TripViewer.tsx lines 55-59): each axis is
`(1-t)^2*p0 + 2(1-t)t*p1 + t^2*p2`. -/
def getQuadraticBezierPoint (t : ℚ) (p0 p1 p2 : LatLng) : LatLng :=
  { lat := (1 - t) * (1 - t) * p0.lat + 2 * (1 - t) * t * p1.lat + t * t * p2.lat
    lng := (1 - t) * (1 - t) * p0.lng + 2 * (1 - t) * t * p1.lng + t * t * p2.lng }

/-- Control point of a curved segment (`getControlPoint`, TripViewer.tsx
lines 64-89): midpoint of the endpoints, offset by the normal
`(normalLat, normalLng) = (-dLng, dLat)` of the start-to-end delta, scaled
by `curvature * direction`. -/
def getControlPoint (s e : LatLng) (curvature direction : ℚ) : LatLng :=
  let midLat := (s.lat + e.lat) / 2
  let midLng := (s.lng + e.lng) / 2
  let dLat := e.lat - s.lat
  let dLng := e.lng - s.lng
  let normalLat := -dLng
  let normalLng := dLat
  { lat := midLat + normalLat * curvature * direction
    lng := midLng + normalLng * curvature * direction }

/-- Sample list of a curve (`generateCurvePath`, TripViewer.tsx lines 92-99):
the Bezier evaluated at `t = i / segments` for `i = 0..segments`. -/
def generateCurvePath (s e control : LatLng) (segments : ℕ) : List LatLng :=
  (List.range (segments + 1)).map
    (fun i => getQuadraticBezierPoint ((i : ℚ) / (segments : ℚ)) s control e)

/-- One element of the `pathSegments` array (TripViewer.tsx lines 145-151).
The JavaScript object stores `start`, `end`, `control`, `curvePath` and
`data`; the loop's local `direction` value that produced `control` is
recorded here as well so that the alternation invariant can be stated. -/
structure Segment where
  start : LatLng
  endp : LatLng
  control : LatLng
  curvePath : List LatLng
  data : TripPoint
  direction : ℚ
deriving DecidableEq

/-- Default Segment used as the `getD` fallback. -/
def dfltSegment : Segment := ⟨dfltLatLng, dfltLatLng, dfltLatLng, [], dfltPoint, 1⟩

/-- The curve direction chosen for segment i (TripViewer.tsx line 140):
`i % 2 === 0 ? 1 : -1`. -/
def segDirection (i : ℕ) : ℚ := if i % 2 = 0 then 1 else -1

/-- The body of the `pathSegments` loop (TripViewer.tsx lines 135-152) at
index i: start and end from the adjacent sorted points, the alternating
direction, the control point with curvature 0.25, the 50-sample static
curve, and `data` set to the segment's starting point. -/
def mkSegment (sorted : List TripPoint) (i : ℕ) : Segment :=
  let p := sorted.getD i dfltPoint
  let q := sorted.getD (i + 1) dfltPoint
  let s : LatLng := ⟨p.lat, p.lng⟩
  let e : LatLng := ⟨q.lat, q.lng⟩
  let direction := segDirection i
  let control := getControlPoint s e (1/4) direction
  { start := s, endp := e, control := control
    curvePath := generateCurvePath s e control 50
    data := p, direction := direction }

/-- The `pathSegments` memo (TripViewer.tsx lines 131-154): for a sorted
point list of length below 2 the empty list, otherwise one segment per
adjacent pair. -/
def pathSegments (sorted : List TripPoint) : List Segment :=
  if sorted.length < 2 then [] else
  (List.range (sorted.length - 1)).map (mkSegment sorted)

/-! Scroll-to-progress mapping of TripViewer's `handleScroll`
(TripViewer.tsx lines 376-433). `scrollStart = vh` (the one-viewport
lead-in) and `sectionHeight = vh * 1.2` (`SCROLL_HEIGHT_MULTIPLIER`). -/

/-- The lead-in-adjusted offset `relativeScroll = max(0, scrollTop - vh)`
(TripViewer.tsx line 386). -/
def tvRelative (scrollTop vh : ℚ) : ℚ := max 0 (scrollTop - vh)

/-- The per-segment scroll height `sectionHeight = vh * 1.2`
(TripViewer.tsx line 384, constant at line 14). -/
def tvSectionHeight (vh : ℚ) : ℚ := vh * (6/5)

/-- The raw section index `floor(relativeScroll / sectionHeight)`
(TripViewer.tsx line 390). -/
def tvSectionIndex (scrollTop vh : ℚ) : ℤ :=
  ⌊tvRelative scrollTop vh / tvSectionHeight vh⌋

/-- The local progress `(relativeScroll % sectionHeight) / sectionHeight`
(TripViewer.tsx line 391). -/
def tvSectionProgress (scrollTop vh : ℚ) : ℚ :=
  jsMod (tvRelative scrollTop vh) (tvSectionHeight vh) / tvSectionHeight vh

/-- The clamped index `safeIndex = min(currentSectionIndex, len - 1)`
(TripViewer.tsx line 394), for a segment list of length `segLen`. -/
def tvSafeIndex (segLen : ℕ) (scrollTop vh : ℚ) : ℤ :=
  min (tvSectionIndex scrollTop vh) ((segLen : ℤ) - 1)

/-- The (segmentIndex, localProgress) pair the handler computes and feeds to
the map logic. -/
def tvPair (segLen : ℕ) (scrollTop vh : ℚ) : ℤ × ℚ :=
  (tvSafeIndex segLen scrollTop vh, tvSectionProgress scrollTop vh)

/-- Lexicographic (non-strict) order on (segmentIndex, localProgress) pairs. -/
def pairLe (p q : ℤ × ℚ) : Prop :=
  p.1 < q.1 ∨ (p.1 = q.1 ∧ p.2 ≤ q.2)

instance (p q : ℤ × ℚ) : Decidable (pairLe p q) := by
  unfold pairLe; infer_instance

/-- Which branch of the map logic of `handleScroll` runs: the in-range
branch (TripViewer.tsx line 397), the past-the-end branch (line 425), or
neither. -/
inductive TVBranch where
  | inRange | atEnd | skipped
deriving DecidableEq

/-- The state updates performed by one run of TripViewer's `handleScroll`
map logic: the branch taken, the position given to the transport overlay
(`none` when the overlay is not moved), and the transport mode written to
the overlay icon (`none` when the icon is not rewritten). -/
structure TVUpdate where
  branch : TVBranch
  pos : Option LatLng
  transport : Option TransportType
deriving DecidableEq

/-- One run of the map logic of `handleScroll` (TripViewer.tsx lines
376-433) on the sorted point list `pts`, scroll offset `scrollTop` and
viewport height `vh`. The early return at line 377 fires when the segment
list is empty. -/
def tvHandle (pts : List TripPoint) (scrollTop vh : ℚ) : TVUpdate :=
  let segs := pathSegments pts
  if segs.length = 0 then ⟨TVBranch.skipped, none, none⟩
  else
    let currentSectionIndex := tvSectionIndex scrollTop vh
    let sectionProgress := tvSectionProgress scrollTop vh
    let safeIndex := tvSafeIndex segs.length scrollTop vh
    if 0 ≤ safeIndex ∧ safeIndex < (segs.length : ℤ) then
      let seg := segs.getD safeIndex.toNat dfltSegment
      ⟨TVBranch.inRange,
       some (getQuadraticBezierPoint sectionProgress seg.start seg.control seg.endp),
       some seg.data.transportToNext⟩
    else if (segs.length : ℤ) ≤ currentSectionIndex then
      let lastPoint := pts.getD (pts.length - 1) dfltPoint
      ⟨TVBranch.atEnd, some ⟨lastPoint.lat, lastPoint.lng⟩, none⟩
    else ⟨TVBranch.skipped, none, none⟩

/-- The position of the transport overlay after map initialisation (which
places it at the first sorted point, TripViewer.tsx lines 269 and 353-358)
followed by one run of `handleScroll`; `none` when there is no point at all
(map initialisation returns early, line 264). -/
def tvVehiclePosition (pts : List TripPoint) (scrollTop vh : ℚ) : Option LatLng :=
  if pts.length = 0 then none
  else
    let p0 := pts.getD 0 dfltPoint
    some ((tvHandle pts scrollTop vh).pos.getD ⟨p0.lat, p0.lng⟩)

/-- The card-local progress (TripViewer.tsx lines 440-448): the global
section progress on the active section, 1 on passed sections, 0 on future
ones. -/
def cardLocalProgress (currentSectionIndex : ℤ) (sectionProgress : ℚ) (idx : ℕ) : ℚ :=
  if currentSectionIndex = (idx : ℤ) then sectionProgress
  else if currentSectionIndex > (idx : ℤ) then 1
  else 0

/-- The visual parameters of a card. -/
structure CardParams where
  opacity : ℚ
  translateY : ℚ
  scale : ℚ
deriving DecidableEq

/-- The card animation parameters derived from a card's local progress
(TripViewer.tsx lines 450-467): enter ramp below 0.10, hold up to 0.85,
exit ramp above. -/
def cardParams (p : ℚ) : CardParams :=
  if p < 1/10 then
    let opacity := p / (1/10)
    ⟨opacity, 30 * (1 - opacity), 19/20 + (1/20) * opacity⟩
  else if p < 17/20 then ⟨1, 0, 1⟩
  else
    let exitProgress := (p - 17/20) / (3/20)
    ⟨1 - exitProgress, -80 * exitProgress, 1 - (1/20) * exitProgress⟩

/-! The StoryMap variant (src/components/StoryMap.tsx) with its
viewport-center based scroll mapping. -/

/-- TransportMode from the StoryMap data model. -/
inductive TransportMode where
  | FLIGHT | TRAIN | CAR | BUS | WALK | SHIP | BICYCLE
deriving DecidableEq

/-- Coordinates from the StoryMap data model. -/
structure Coordinates where
  lat : ℚ
  lng : ℚ
deriving DecidableEq

/-- The fields of TravelStop that the StoryMap scroll handler reads. -/
structure TravelStop where
  id : String
  coordinates : Coordinates
  transportMode : TransportMode
  order : ℤ
deriving DecidableEq

/-- Default TravelStop used as the `getD` fallback. -/
def dfltStop : TravelStop := ⟨"", ⟨0, 0⟩, TransportMode.FLIGHT, 0⟩

/-- A card's bounding client rectangle as the handler reads it. -/
structure Rect where
  top : ℚ
  height : ℚ
deriving DecidableEq

/-- Default Rect used as the `getD` fallback. -/
def dfltRect : Rect := ⟨0, 0⟩

/-- Vertical center of a card rectangle (`rect.top + rect.height / 2`,
StoryMap.tsx lines 183-184). -/
def rectCenter (r : Rect) : ℚ := r.top + r.height / 2

/-- The search loop of StoryMap's `handleScroll` (StoryMap.tsx lines
175-207): walking consecutive card pairs, it returns the first index `i`
with `center_i <= viewCenter < center_(i+1)`, together with the linear
progress of `viewCenter` between the two centers. -/
def smFindAux (viewCenter : ℚ) : List (Rect × Rect) → ℕ → Option (ℕ × ℚ)
  | [], _ => none
  | (r, r') :: rest, i =>
      if rectCenter r ≤ viewCenter ∧ viewCenter < rectCenter r' then
        some (i, (viewCenter - rectCenter r) / (rectCenter r' - rectCenter r))
      else smFindAux viewCenter rest (i + 1)

/-- The state updates performed by one run of StoryMap's `handleScroll`;
a `none` field means the corresponding setState is not called. -/
structure SMUpdate where
  activeStopIndex : Option ℕ
  vehiclePos : Option Coordinates
  simulatedSpeed : Option ℤ
  activeTransportMode : Option TransportMode
deriving DecidableEq

/-- One run of StoryMap's `handleScroll` (StoryMap.tsx lines 164-225) on
the sorted stop list, the card rectangles and the container height. The
active branch interpolates between consecutive stops, sets the speed
`round(progress * 120 + 20)` and shows the arrival stop's transport mode;
the fallback branches park the vehicle on the last or first stop with
speed 0. -/
def smHandleScroll (stops : List TravelStop) (rects : List Rect)
    (containerHeight : ℚ) : SMUpdate :=
  if stops.length = 0 then ⟨none, none, none, none⟩
  else if rects.length = 0 then ⟨none, none, none, none⟩
  else
    match smFindAux (containerHeight / 2) (rects.zip rects.tail) 0 with
    | some (i, progress) =>
        let s := stops.getD i dfltStop
        let t := stops.getD (i + 1) dfltStop
        let curLat := s.coordinates.lat + (t.coordinates.lat - s.coordinates.lat) * progress
        let curLng := s.coordinates.lng + (t.coordinates.lng - s.coordinates.lng) * progress
        ⟨some i, some ⟨curLat, curLng⟩, some (round (progress * 120 + 20)),
         some t.transportMode⟩
    | none =>
        let lastIdx := rects.length - 1
        if (rects.getD lastIdx dfltRect).top ≤ containerHeight / 2 then
          ⟨some lastIdx, some (stops.getD lastIdx dfltStop).coordinates, some 0, none⟩
        else if containerHeight / 2 < (rects.getD 0 dfltRect).top then
          ⟨some 0, some (stops.getD 0 dfltStop).coordinates, some 0, none⟩
        else ⟨none, none, none, none⟩

/-- The render guard of StoryMap (StoryMap.tsx lines 236-248): with no
stops a distinct no-route screen is rendered instead of the route view. -/
inductive SMView where
  | noRoute | route
deriving DecidableEq

/-- Which screen StoryMap renders, per its render guard. -/
def smRenderGuard (stops : List TravelStop) : SMView :=
  if stops.length = 0 then SMView.noRoute else SMView.route

/-! Definitions written from the specification's words, for the refinement
claims that compare the code's formulas with the specification's. -/

/-- Midpoint of two coordinate pairs, from the specification of the Path
Builder. -/
def specMidpoint (a b : LatLng) : LatLng := ⟨(a.lat + b.lat) / 2, (a.lng + b.lng) / 2⟩

/-- Componentwise difference of coordinate pairs. -/
def specDelta (e s : LatLng) : LatLng := ⟨e.lat - s.lat, e.lng - s.lng⟩

/-- The specification's 90-degree rotation `P = (-D.y, D.x)`, read in the
latitude-first component order `(x, y) = (lat, lng)` that the code's
LatLng pairs use: the lat component of P is `-D.lng` and the lng component
is `D.lat`. -/
def specRotate90 (v : LatLng) : LatLng := ⟨-v.lng, v.lat⟩

/-- The specification's control point `M + P * curvature * direction`. -/
def specControlPoint (s e : LatLng) (curvature direction : ℚ) : LatLng :=
  let m := specMidpoint s e
  let p := specRotate90 (specDelta e s)
  ⟨m.lat + p.lat * curvature * direction, m.lng + p.lng * curvature * direction⟩

/-! Concrete data used by the closed counterexamples and witnesses. -/

/-- A concrete first waypoint. -/
def wpA : TripPoint := ⟨"a", 10, 20, "2024-01-01T10:00", TransportType.CAR⟩

/-- A concrete second waypoint, with a transport mode different from wpA's. -/
def wpB : TripPoint := ⟨"b", 30, 40, "2024-01-02T10:00", TransportType.WALK⟩

/-- A concrete third waypoint. -/
def wpC : TripPoint := ⟨"c", 50, 60, "2024-01-03T10:00", TransportType.TRAIN⟩

/-! Helper lemmas about the path builder. -/

/-- A point list shorter than 2 yields no segments. -/
theorem pathSegments_eq_nil {pts : List TripPoint} (h : pts.length < 2) :
    pathSegments pts = [] := by
  simp [pathSegments, h]

/-- With at least two points the path builder yields one segment per
adjacent pair. -/
theorem pathSegments_length {pts : List TripPoint} (h : 2 ≤ pts.length) :
    (pathSegments pts).length = pts.length - 1 := by
  simp [pathSegments, Nat.not_lt.mpr h]

/-- Indexing into the segment list reaches the loop body at that index. -/
theorem pathSegments_getD {pts : List TripPoint} {i : ℕ} (h : 2 ≤ pts.length)
    (hi : i < pts.length - 1) :
    (pathSegments pts).getD i dfltSegment = mkSegment pts i := by
  unfold pathSegments
  rw [if_neg (Nat.not_lt.mpr h)]
  rw [List.getD_eq_getElem _ _ (by simpa using hi)]
  simp

/-- Helper for evaluating concrete floors: the floor of x is n when
n <= x < n + 1. -/
theorem floor_eq_of (x : ℚ) (n : ℤ) (h1 : (n : ℚ) ≤ x) (h2 : x < n + 1) : ⌊x⌋ = n :=
  Int.floor_eq_iff.mpr ⟨h1, h2⟩

/-- Claim C5: evaluating the quadratic Bezier position function at t = 0
returns exactly the segment's start coordinate and at t = 1 exactly its
end coordinate, for every start, control and end point — an exact
algebraic identity of the per-axis formula. -/
theorem bezier_endpoint_roundtrip (p0 p1 p2 : LatLng) :
    getQuadraticBezierPoint 0 p0 p1 p2 = p0 ∧
    getQuadraticBezierPoint 1 p0 p1 p2 = p2 := by
  obtain ⟨a, b⟩ := p0
  obtain ⟨c, d⟩ := p1
  obtain ⟨e, f⟩ := p2
  constructor <;>
    · simp only [getQuadraticBezierPoint, LatLng.mk.injEq]
      constructor <;> ring

/-- Claim C7: the card driver assigns per-card progress 1 when the current
section index exceeds the card's index, the global local progress when it
equals it, and 0 otherwise; from that progress, at 0.05 (enter phase,
below the 0.10 boundary) the opacity is strictly between 0 and 1, at 0.5
(hold phase, between 0.10 and 0.85) the parameters are exactly opacity 1,
translate 0, scale 1, and at 0.95 (exit phase, above 0.85) the opacity is
strictly between 0 and 1. -/
theorem card_driver_phases :
    (∀ (ci : ℤ) (sp : ℚ) (k : ℕ),
        cardLocalProgress ci sp k =
          if (k : ℤ) < ci then 1 else if ci = (k : ℤ) then sp else 0) ∧
    ((1 : ℚ)/20 < 1/10 ∧
      0 < (cardParams (1/20)).opacity ∧ (cardParams (1/20)).opacity < 1) ∧
    ((1 : ℚ)/10 ≤ 1/2 ∧ (1 : ℚ)/2 < 17/20 ∧
      cardParams (1/2) = ⟨1, 0, 1⟩) ∧
    ((17 : ℚ)/20 ≤ 19/20 ∧
      0 < (cardParams (19/20)).opacity ∧ (cardParams (19/20)).opacity < 1) := by
  refine ⟨?_, by norm_num [cardParams], by norm_num [cardParams],
    by norm_num [cardParams]⟩
  intro ci sp k
  unfold cardLocalProgress
  split_ifs <;> first | rfl | omega

/-- Claim C4: for a canonically ordered list with at least two waypoints,
the path builder produces exactly N - 1 segments, segment i connects
waypoint i to waypoint i + 1, its curve direction sign is +1 for even i
and -1 for odd i, and consecutive segments carry opposite signs. -/
theorem pathSegments_structure (pts : List TripPoint) (i : ℕ)
    (h2 : 2 ≤ pts.length) (hi : i + 1 < pts.length) :
    (pathSegments pts).length = pts.length - 1 ∧
    ((pathSegments pts).getD i dfltSegment).start =
      ⟨(pts.getD i dfltPoint).lat, (pts.getD i dfltPoint).lng⟩ ∧
    ((pathSegments pts).getD i dfltSegment).endp =
      ⟨(pts.getD (i + 1) dfltPoint).lat, (pts.getD (i + 1) dfltPoint).lng⟩ ∧
    ((pathSegments pts).getD i dfltSegment).data = pts.getD i dfltPoint ∧
    ((pathSegments pts).getD i dfltSegment).direction =
      (if i % 2 = 0 then 1 else -1) ∧
    (i + 2 < pts.length →
      ((pathSegments pts).getD (i + 1) dfltSegment).direction =
        -((pathSegments pts).getD i dfltSegment).direction) := by
  have hgd := pathSegments_getD h2 (by omega : i < pts.length - 1)
  refine ⟨pathSegments_length h2, ?_, ?_, ?_, ?_, ?_⟩
  · rw [hgd]; rfl
  · rw [hgd]; rfl
  · rw [hgd]; rfl
  · rw [hgd]; rfl
  · intro hii
    rw [hgd, pathSegments_getD h2 (by omega : i + 1 < pts.length - 1)]
    show segDirection (i + 1) = -segDirection i
    unfold segDirection
    rcases Nat.even_or_odd i with he | ho
    · have h0 : i % 2 = 0 := Nat.even_iff.mp he
      rw [if_pos h0, if_neg (by omega : ¬ (i + 1) % 2 = 0)]
    · have h1 : i % 2 = 1 := Nat.odd_iff.mp ho
      rw [if_neg (by omega : ¬ i % 2 = 0),
        if_pos (by omega : (i + 1) % 2 = 0)]
      norm_num

/-- Witness for C4: the three-point trip [wpA, wpB, wpC] satisfies the
hypotheses and the conclusion of the path builder structure theorem at
segment 0. -/
theorem pathSegments_structure_witness :
    2 ≤ ([wpA, wpB, wpC] : List TripPoint).length ∧
    0 + 1 < ([wpA, wpB, wpC] : List TripPoint).length ∧
    ((pathSegments [wpA, wpB, wpC]).length = [wpA, wpB, wpC].length - 1 ∧
      ((pathSegments [wpA, wpB, wpC]).getD 0 dfltSegment).start =
        ⟨([wpA, wpB, wpC].getD 0 dfltPoint).lat, ([wpA, wpB, wpC].getD 0 dfltPoint).lng⟩ ∧
      ((pathSegments [wpA, wpB, wpC]).getD 0 dfltSegment).endp =
        ⟨([wpA, wpB, wpC].getD (0 + 1) dfltPoint).lat,
         ([wpA, wpB, wpC].getD (0 + 1) dfltPoint).lng⟩ ∧
      ((pathSegments [wpA, wpB, wpC]).getD 0 dfltSegment).data =
        [wpA, wpB, wpC].getD 0 dfltPoint ∧
      ((pathSegments [wpA, wpB, wpC]).getD 0 dfltSegment).direction =
        (if 0 % 2 = 0 then 1 else -1) ∧
      (0 + 2 < ([wpA, wpB, wpC] : List TripPoint).length →
        ((pathSegments [wpA, wpB, wpC]).getD (0 + 1) dfltSegment).direction =
          -((pathSegments [wpA, wpB, wpC]).getD 0 dfltSegment).direction)) :=
  ⟨by decide, by decide,
    pathSegments_structure [wpA, wpB, wpC] 0 (by decide) (by decide)⟩

/-- Claim C6: the code's control point construction agrees with the
specification's formula control = M + P * curvature * direction, where M
is the midpoint, P is the 90-degree rotation (-D.y, D.x) of the
start-to-end delta D in latitude-first component order, and the path
builder instantiates it with curvature 0.25 (inside the specified 0.2-0.25
range) and sign +1 on even segments, -1 on odd ones. -/
theorem control_point_matches_spec (s e : LatLng) (curvature direction : ℚ)
    (pts : List TripPoint) (i : ℕ) (h2 : 2 ≤ pts.length)
    (hi : i + 1 < pts.length) :
    getControlPoint s e curvature direction =
      specControlPoint s e curvature direction ∧
    ((pathSegments pts).getD i dfltSegment).control =
      specControlPoint
        ⟨(pts.getD i dfltPoint).lat, (pts.getD i dfltPoint).lng⟩
        ⟨(pts.getD (i + 1) dfltPoint).lat, (pts.getD (i + 1) dfltPoint).lng⟩
        (1/4) (if i % 2 = 0 then 1 else -1) ∧
    ((1 : ℚ)/5 ≤ 1/4 ∧ (1 : ℚ)/4 ≤ 1/4) := by
  have hagree : ∀ (s' e' : LatLng) (c' d' : ℚ),
      getControlPoint s' e' c' d' = specControlPoint s' e' c' d' :=
    fun s' e' c' d' => rfl
  refine ⟨hagree s e curvature direction, ?_, by norm_num⟩
  rw [pathSegments_getD h2 (by omega : i < pts.length - 1)]
  show getControlPoint _ _ (1/4) (segDirection i) = _
  rw [hagree]
  rfl

/-- Witness for C6: the control point refinement instantiated on the
concrete trip [wpA, wpB, wpC] at segment 0. -/
theorem control_point_matches_spec_witness :
    2 ≤ ([wpA, wpB, wpC] : List TripPoint).length ∧
    0 + 1 < ([wpA, wpB, wpC] : List TripPoint).length ∧
    (getControlPoint ⟨0, 0⟩ ⟨2, 4⟩ (1/4) 1 = specControlPoint ⟨0, 0⟩ ⟨2, 4⟩ (1/4) 1 ∧
      ((pathSegments [wpA, wpB, wpC]).getD 0 dfltSegment).control =
        specControlPoint
          ⟨([wpA, wpB, wpC].getD 0 dfltPoint).lat, ([wpA, wpB, wpC].getD 0 dfltPoint).lng⟩
          ⟨([wpA, wpB, wpC].getD (0 + 1) dfltPoint).lat,
           ([wpA, wpB, wpC].getD (0 + 1) dfltPoint).lng⟩
          (1/4) (if 0 % 2 = 0 then 1 else -1) ∧
      ((1 : ℚ)/5 ≤ 1/4 ∧ (1 : ℚ)/4 ≤ 1/4)) :=
  ⟨by decide, by decide,
    control_point_matches_spec ⟨0, 0⟩ ⟨2, 4⟩ (1/4) 1 [wpA, wpB, wpC] 0
      (by decide) (by decide)⟩

/-- The section height is positive for a positive viewport height. -/
theorem tvSectionHeight_pos {vh : ℚ} (hvh : 0 < vh) : 0 < tvSectionHeight vh := by
  have h65 : (0 : ℚ) < 6/5 := by norm_num
  exact mul_pos hvh h65

/-- The relative scroll offset is never negative. -/
theorem tvRelative_nonneg (scrollTop vh : ℚ) : 0 ≤ tvRelative scrollTop vh :=
  le_max_left 0 _

/-- The raw section index is never negative for a positive viewport height. -/
theorem tvSectionIndex_nonneg (scrollTop vh : ℚ) (hvh : 0 < vh) :
    0 ≤ tvSectionIndex scrollTop vh :=
  Int.floor_nonneg.mpr
    (div_nonneg (tvRelative_nonneg scrollTop vh) (tvSectionHeight_pos hvh).le)

/-- The clamped index always lies in [0, segLen - 1] when there is at
least one segment and the viewport height is positive. -/
theorem tvSafeIndex_bounds (segLen : ℕ) (scrollTop vh : ℚ)
    (hvh : 0 < vh) (hlen : 1 ≤ segLen) :
    0 ≤ tvSafeIndex segLen scrollTop vh ∧
      tvSafeIndex segLen scrollTop vh < (segLen : ℤ) := by
  have hidx := tvSectionIndex_nonneg scrollTop vh hvh
  have hmr := min_le_right (tvSectionIndex scrollTop vh) ((segLen : ℤ) - 1)
  constructor
  · unfold tvSafeIndex
    exact le_min hidx (by omega)
  · unfold tvSafeIndex at *
    omega

/-- Claim C10: for every scroll offset and non-empty segment list, the
clamped segment index lies within [0, segmentCount - 1], so the in-range
branch of the scroll handler runs (the segment array access is in bounds)
and the separate past-the-end fallback branch is unreachable. -/
theorem safe_index_in_bounds (pts : List TripPoint) (scrollTop vh : ℚ)
    (hvh : 0 < vh) (hseg : pathSegments pts ≠ []) :
    0 ≤ tvSafeIndex (pathSegments pts).length scrollTop vh ∧
    tvSafeIndex (pathSegments pts).length scrollTop vh <
      ((pathSegments pts).length : ℤ) ∧
    (tvHandle pts scrollTop vh).branch = TVBranch.inRange := by
  have hlen1 : 1 ≤ (pathSegments pts).length := List.length_pos.mpr hseg
  obtain ⟨hb0, hb1⟩ := tvSafeIndex_bounds (pathSegments pts).length scrollTop vh hvh hlen1
  refine ⟨hb0, hb1, ?_⟩
  unfold tvHandle
  rw [if_neg (by omega : ¬ (pathSegments pts).length = 0), if_pos ⟨hb0, hb1⟩]

/-- Witness for C10: the safe index bounds on a concrete two-point trip at
a concrete scroll offset past the end of the route. -/
theorem safe_index_in_bounds_witness :
    (0 : ℚ) < 1 ∧ pathSegments [wpA, wpB] ≠ [] ∧
    (0 ≤ tvSafeIndex (pathSegments [wpA, wpB]).length 3 1 ∧
      tvSafeIndex (pathSegments [wpA, wpB]).length 3 1 <
        ((pathSegments [wpA, wpB]).length : ℤ) ∧
      (tvHandle [wpA, wpB] 3 1).branch = TVBranch.inRange) :=
  ⟨by norm_num, by simp [pathSegments],
    safe_index_in_bounds [wpA, wpB] 3 1 (by norm_num) (by simp [pathSegments])⟩

/-- Claim C1 (divergence witness): with one segment (two waypoints),
viewport height 1 and raw offset 3, the relative offset 2 lies past the
end of the route (the computed section index is 1, at least the segment
count 1), yet the mapper yields localProgress 2/3 — the wrapped remainder
(2 mod 1.2) / 1.2 — instead of the snap-to-end value 1, and the handler
still takes the in-range branch, never the past-the-end branch. -/
theorem tv_past_end_wraps_instead_of_snapping :
    (pathSegments [wpA, wpB]).length = 1 ∧
    1 ≤ tvSectionIndex 3 1 ∧
    tvPair 1 3 1 = (0, 2/3) ∧
    (2 : ℚ)/3 ≠ 1 ∧
    (tvHandle [wpA, wpB] 3 1).branch = TVBranch.inRange ∧
    (tvHandle [wpA, wpB] 3 1).branch ≠ TVBranch.atEnd := by
  have hfl : ⌊tvRelative 3 1 / tvSectionHeight 1⌋ = 1 := by
    unfold tvRelative tvSectionHeight
    apply floor_eq_of <;> norm_num [max_def]
  have hidx : tvSectionIndex 3 1 = 1 := by
    unfold tvSectionIndex; exact hfl
  have hlen : (pathSegments [wpA, wpB]).length = 1 := by simp [pathSegments]
  have hpair : tvPair 1 3 1 = (0, 2/3) := by
    unfold tvPair tvSafeIndex tvSectionProgress jsMod
    rw [hidx, hfl]
    norm_num [tvRelative, tvSectionHeight, max_def]
  obtain ⟨hb0, hb1⟩ :=
    tvSafeIndex_bounds (pathSegments [wpA, wpB]).length 3 1 (by norm_num)
      (by rw [hlen])
  have hbranch : (tvHandle [wpA, wpB] 3 1).branch = TVBranch.inRange := by
    unfold tvHandle
    rw [if_neg (by rw [hlen]; norm_num : ¬ (pathSegments [wpA, wpB]).length = 0),
      if_pos ⟨hb0, hb1⟩]
  refine ⟨hlen, by rw [hidx], hpair, by norm_num, hbranch, ?_⟩
  rw [hbranch]
  simp

/-- Counterexample to claim C2 as stated: with one segment and viewport
height 1, raising the raw offset from 2.1 to 2.5 crosses the end of the
route, and the (segmentIndex, localProgress) pair falls from (0, 11/12)
to (0, 1/4): the mapping is not monotone once offsets run past the end. -/
theorem tv_pair_monotonicity_cx :
    (21 : ℚ)/10 ≤ 5/2 ∧
    tvPair 1 (21/10) 1 = (0, 11/12) ∧
    tvPair 1 (5/2) 1 = (0, 1/4) ∧
    ¬ pairLe (tvPair 1 (21/10) 1) (tvPair 1 (5/2) 1) := by
  have hfa : ⌊tvRelative (21/10) 1 / tvSectionHeight 1⌋ = 0 := by
    unfold tvRelative tvSectionHeight
    apply floor_eq_of <;> norm_num [max_def]
  have hfb : ⌊tvRelative (5/2) 1 / tvSectionHeight 1⌋ = 1 := by
    unfold tvRelative tvSectionHeight
    apply floor_eq_of <;> norm_num [max_def]
  have hpa : tvPair 1 (21/10) 1 = (0, 11/12) := by
    unfold tvPair tvSafeIndex tvSectionIndex tvSectionProgress jsMod
    rw [hfa]
    norm_num [tvRelative, tvSectionHeight, max_def]
  have hpb : tvPair 1 (5/2) 1 = (0, 1/4) := by
    unfold tvPair tvSafeIndex tvSectionIndex tvSectionProgress jsMod
    rw [hfb]
    norm_num [tvRelative, tvSectionHeight, max_def]
  refine ⟨by norm_num, hpa, hpb, ?_⟩
  rw [hpa, hpb]
  norm_num [pairLe]

/-- Claim C2 as amended: for a fixed non-empty segment list and a positive
viewport height, the scroll-to-progress mapping is monotone for every pair
of raw offsets a <= b that stay within the route, i.e. whose relative
offset is below segmentCount * sectionHeight; past the end of the route
the local progress wraps (see the counterexample), as forced by the dead
snap-to-end branch. -/
theorem tv_pair_monotone_within_route (segLen : ℕ) (vh a b : ℚ)
    (hvh : 0 < vh) (hlen : 1 ≤ segLen) (hab : a ≤ b)
    (hend : tvRelative b vh < segLen * tvSectionHeight vh) :
    pairLe (tvPair segLen a vh) (tvPair segLen b vh) := by
  have hsh := tvSectionHeight_pos hvh
  have hrel : tvRelative a vh ≤ tvRelative b vh := by
    unfold tvRelative
    exact max_le_max le_rfl (by linarith)
  have hidx : tvSectionIndex a vh ≤ tvSectionIndex b vh := by
    unfold tvSectionIndex
    exact Int.floor_le_floor ((div_le_div_right hsh).mpr hrel)
  have hbidx : tvSectionIndex b vh < (segLen : ℤ) := by
    unfold tvSectionIndex
    rw [Int.floor_lt]
    rw [div_lt_iff hsh]
    push_cast
    linarith
  have ha0 := tvSectionIndex_nonneg a vh hvh
  have hsafea : tvSafeIndex segLen a vh = tvSectionIndex a vh := by
    unfold tvSafeIndex
    exact min_eq_left (by omega)
  have hsafeb : tvSafeIndex segLen b vh = tvSectionIndex b vh := by
    unfold tvSafeIndex
    exact min_eq_left (by omega)
  rcases lt_or_eq_of_le hidx with hlt | heq
  · refine Or.inl ?_
    show tvSafeIndex segLen a vh < tvSafeIndex segLen b vh
    rw [hsafea, hsafeb]; exact hlt
  · refine Or.inr ⟨?_, ?_⟩
    · show tvSafeIndex segLen a vh = tvSafeIndex segLen b vh
      rw [hsafea, hsafeb, heq]
    show tvSectionProgress a vh ≤ tvSectionProgress b vh
    unfold tvSectionProgress jsMod
    apply (div_le_div_right hsh).mpr
    have hfleq : ⌊tvRelative a vh / tvSectionHeight vh⌋ =
        ⌊tvRelative b vh / tvSectionHeight vh⌋ := heq
    rw [hfleq]
    linarith

/-- Witness for the amended C2: two in-route offsets on a two-segment trip
with viewport height 1. -/
theorem tv_pair_monotone_within_route_witness :
    (0 : ℚ) < 1 ∧ 1 ≤ 2 ∧ (3/2 : ℚ) ≤ 2 ∧
    tvRelative 2 1 < 2 * tvSectionHeight 1 ∧
    pairLe (tvPair 2 (3/2) 1) (tvPair 2 2 1) :=
  ⟨by norm_num, by norm_num, by norm_num,
    by norm_num [tvRelative, tvSectionHeight, max_def],
    tv_pair_monotone_within_route 2 1 (3/2) 2 (by norm_num) (by norm_num)
      (by norm_num) (by norm_num [tvRelative, tvSectionHeight, max_def])⟩

/-- The strict lexicographic order on the (date string, id string) key
that the string tie-break of the comparator realises. -/
def keyLt (a b : TripPoint) : Prop :=
  a.date < b.date ∨ (a.date = b.date ∧ a.id < b.id)

/-- A negative strCmp means the first string is smaller. -/
theorem strCmp_neg_iff {a b : String} : strCmp a b < 0 ↔ a < b := by
  unfold strCmp
  split_ifs with h1 h2
  · exact iff_of_true (by norm_num) h1
  · exact iff_of_false (by norm_num) (h2 ▸ h1)
  · exact iff_of_false (by norm_num) h1

/-- A zero strCmp means the strings are equal. -/
theorem strCmp_eq_zero_iff {a b : String} : strCmp a b = 0 ↔ a = b := by
  unfold strCmp
  split_ifs with h1 h2
  · exact iff_of_false (by norm_num) (ne_of_lt h1)
  · exact iff_of_true rfl h2
  · exact iff_of_false (by norm_num) h2

/-- strCmp changes sign when its arguments swap. -/
theorem strCmp_antisym (a b : String) : strCmp b a = -strCmp a b := by
  unfold strCmp
  rcases lt_trichotomy a b with h | h | h
  · rw [if_neg (asymm h), if_neg (Ne.symm (ne_of_lt h)), if_pos h]
    norm_num
  · subst h
    rw [if_neg (lt_irrefl a), if_pos rfl]
    norm_num
  · rw [if_pos h, if_neg (asymm h), if_neg (ne_of_gt h)]

/-- The string tie-break is negative exactly on the lexicographic key
order. -/
theorem strTie_neg_iff (a b : TripPoint) : strTie a b < 0 ↔ keyLt a b := by
  unfold strTie keyLt
  by_cases hd : strCmp a.date b.date = 0
  · rw [if_neg (by omega)]
    have hdeq : a.date = b.date := strCmp_eq_zero_iff.mp hd
    constructor
    · intro h
      exact Or.inr ⟨hdeq, strCmp_neg_iff.mp h⟩
    · rintro (h | ⟨-, h⟩)
      · exact absurd h (hdeq ▸ lt_irrefl a.date)
      · exact strCmp_neg_iff.mpr h
  · rw [if_pos hd]
    have hdne : a.date ≠ b.date := fun h => hd (strCmp_eq_zero_iff.mpr h)
    constructor
    · intro h
      exact Or.inl (strCmp_neg_iff.mp h)
    · rintro (h | ⟨h, -⟩)
      · exact strCmp_neg_iff.mpr h
      · exact absurd h hdne

/-- The string tie-break is zero exactly on equal keys. -/
theorem strTie_eq_zero_iff (a b : TripPoint) :
    strTie a b = 0 ↔ (a.date = b.date ∧ a.id = b.id) := by
  unfold strTie
  by_cases hd : strCmp a.date b.date = 0
  · rw [if_neg (by omega)]
    exact ⟨fun h => ⟨strCmp_eq_zero_iff.mp hd, strCmp_eq_zero_iff.mp h⟩,
      fun ⟨_, h⟩ => strCmp_eq_zero_iff.mpr h⟩
  · rw [if_pos hd]
    exact ⟨fun h => absurd h hd,
      fun ⟨h, _⟩ => absurd (strCmp_eq_zero_iff.mpr h) hd⟩

/-- The string tie-break changes sign when its arguments swap. -/
theorem strTie_antisym (a b : TripPoint) : strTie b a = -strTie a b := by
  by_cases hd : strCmp a.date b.date = 0
  · have hd' : strCmp b.date a.date = 0 := by
      rw [strCmp_antisym a.date b.date]; omega
    unfold strTie
    rw [if_neg (by omega : ¬ strCmp b.date a.date ≠ 0),
      if_neg (by omega : ¬ strCmp a.date b.date ≠ 0)]
    exact strCmp_antisym a.id b.id
  · have hd' : strCmp b.date a.date ≠ 0 := by
      rw [strCmp_antisym a.date b.date]; omega
    unfold strTie
    rw [if_pos hd', if_pos (by omega : strCmp a.date b.date ≠ 0)]
    exact strCmp_antisym a.date b.date

/-- The comparator changes sign when its arguments swap. -/
theorem robustSort_antisym (parse : String → Option ℤ) (a b : TripPoint) :
    robustSort parse b a = -robustSort parse a b := by
  unfold robustSort
  cases ha : parse a.date <;> cases hb : parse b.date <;>
    simp only [ha, hb] <;> try exact strTie_antisym a b
  rename_i ta tb
  by_cases h : ta = tb
  · subst h
    rw [if_neg (by omega), if_neg (by omega)]
    exact strTie_antisym a b
  · rw [if_pos (by omega : ¬ tb = ta), if_pos (by omega : ¬ ta = tb)]
    omega

/-- Under a parse that is monotone with respect to the lexicographic
order of the date strings it accepts, the comparator is negative exactly
on the lexicographic key order. -/
theorem robustSort_lt_iff {parse : String → Option ℤ}
    (hMono : ∀ s t ta tb, parse s = some ta → parse t = some tb →
      s ≤ t → ta ≤ tb)
    (a b : TripPoint) : robustSort parse a b < 0 ↔ keyLt a b := by
  unfold robustSort
  cases ha : parse a.date <;> cases hb : parse b.date <;>
    simp only [ha, hb] <;> try exact strTie_neg_iff a b
  rename_i ta tb
  by_cases h : ta = tb
  · subst h
    rw [if_neg (by omega)]
    exact strTie_neg_iff a b
  · rw [if_pos (by omega : ¬ ta = tb)]
    have hdne : a.date ≠ b.date := by
      intro hdeq
      rw [hdeq, hb] at ha
      exact h (Option.some.inj ha).symm
    have hiff : ta < tb ↔ a.date < b.date := by
      constructor
      · intro hlt
        by_contra hnlt
        exact absurd (hMono b.date a.date tb ta hb ha (le_of_not_lt hnlt))
          (by omega)
      · intro hlt
        exact lt_of_le_of_ne (hMono a.date b.date ta tb ha hb (le_of_lt hlt)) h
    unfold keyLt
    constructor
    · intro hneg
      exact Or.inl (hiff.mp (by omega))
    · rintro (hlt | ⟨hdeq, -⟩)
      · have := hiff.mpr hlt
        omega
      · exact absurd hdeq hdne

/-- A zero comparator value forces equal date strings and equal ids. -/
theorem robustSort_eq_zero {parse : String → Option ℤ} (a b : TripPoint)
    (h : robustSort parse a b = 0) : a.date = b.date ∧ a.id = b.id := by
  unfold robustSort at h
  revert h
  cases ha : parse a.date <;> cases hb : parse b.date <;>
    simp only [ha, hb] <;> try exact fun h => (strTie_eq_zero_iff a b).mp h
  rename_i ta tb
  by_cases hne : ta = tb
  · subst hne
    rw [if_neg (by omega)]
    exact fun h => (strTie_eq_zero_iff a b).mp h
  · rw [if_pos (by omega : ¬ ta = tb)]
    intro h
    omega

/-- The key order is transitive. -/
theorem keyLt_trans {a b c : TripPoint} (h1 : keyLt a b) (h2 : keyLt b c) :
    keyLt a c := by
  unfold keyLt at *
  rcases h1 with h1 | ⟨e1, h1⟩ <;> rcases h2 with h2 | ⟨e2, h2⟩
  · exact Or.inl (lt_trans h1 h2)
  · exact Or.inl (e2 ▸ h1)
  · exact Or.inl (e1 ▸ h2)
  · exact Or.inr ⟨e1.trans e2, lt_trans h1 h2⟩

/-- The key order respects key equality on the right. -/
theorem keyLt_congr {a b c : TripPoint} (hd : a.date = b.date)
    (hi : a.id = b.id) (h : keyLt c a) : keyLt c b := by
  unfold keyLt at *
  rcases h with h | ⟨e, h⟩
  · exact Or.inl (hd ▸ h)
  · exact Or.inr ⟨e.trans hd, hi ▸ h⟩

/-- Key trichotomy: either one key is smaller or the keys coincide. -/
theorem keyLt_tri (a b : TripPoint) :
    keyLt a b ∨ keyLt b a ∨ (a.date = b.date ∧ a.id = b.id) := by
  unfold keyLt
  rcases lt_trichotomy a.date b.date with h | h | h
  · exact Or.inl (Or.inl h)
  · rcases lt_trichotomy a.id b.id with hi | hi | hi
    · exact Or.inl (Or.inr ⟨h, hi⟩)
    · exact Or.inr (Or.inr ⟨h, hi⟩)
    · exact Or.inr (Or.inl (Or.inr ⟨h.symm, hi⟩))
  · exact Or.inr (Or.inl (Or.inl h))

/-- Under a monotone parse, a non-positive comparator value means the
first key is not greater. -/
theorem robustSort_le_iff {parse : String → Option ℤ}
    (hMono : ∀ s t ta tb, parse s = some ta → parse t = some tb →
      s ≤ t → ta ≤ tb)
    (a b : TripPoint) : robustSort parse a b ≤ 0 ↔ ¬ keyLt b a := by
  have h1 := robustSort_lt_iff hMono b a
  have h2 := robustSort_antisym parse a b
  constructor
  · intro hle hk
    have := h1.mpr hk
    omega
  · intro hk
    have := mt h1.mp hk
    omega

/-- Claim C3 as amended: when the timestamp parse is monotone with respect
to the lexicographic order of the date strings it accepts (as for
uniformly formatted ISO strings, or when no string parses), the comparator
induces a strict total order on waypoints with distinct ids — transitive,
asymmetric and total — and sorting a waypoint list twice yields the
identical sequence. With a parse that inverts the string order of two
parseable dates, transitivity fails on a mix with an unparseable date
(see the counterexample). -/
theorem robustSort_total_order_of_monotone_parse (parse : String → Option ℤ)
    (hMono : ∀ s t ta tb, parse s = some ta → parse t = some tb →
      s ≤ t → ta ≤ tb)
    (x y z : TripPoint) (l : List TripPoint) :
    (robustSort parse x y < 0 → robustSort parse y z < 0 →
      robustSort parse x z < 0) ∧
    (robustSort parse x y < 0 → ¬ robustSort parse y x < 0) ∧
    (x.id ≠ y.id → robustSort parse x y < 0 ∨ robustSort parse y x < 0) ∧
    sortPoints parse (sortPoints parse l) = sortPoints parse l := by
  refine ⟨?_, ?_, ?_, ?_⟩
  · intro h1 h2
    exact (robustSort_lt_iff hMono x z).mpr
      (keyLt_trans ((robustSort_lt_iff hMono x y).mp h1)
        ((robustSort_lt_iff hMono y z).mp h2))
  · intro h1 h2
    have := robustSort_antisym parse x y
    omega
  · intro hid
    by_contra hcon
    push_neg at hcon
    have hanti := robustSort_antisym parse x y
    have h0 : robustSort parse x y = 0 := by omega
    exact hid (robustSort_eq_zero x y h0).2
  · unfold sortPoints
    haveI : IsTotal TripPoint (fun a b => robustSort parse a b ≤ 0) :=
      ⟨fun a b => by
        have := robustSort_antisym parse a b
        omega⟩
    haveI : IsTrans TripPoint (fun a b => robustSort parse a b ≤ 0) :=
      ⟨fun a b c hab hbc => by
        rw [robustSort_le_iff hMono] at hab hbc ⊢
        intro hca
        rcases keyLt_tri a b with h | h | ⟨hd, hi⟩
        · exact hbc (keyLt_trans hca h)
        · exact hab h
        · exact hbc (keyLt_congr hd hi hca)⟩
    exact List.Sorted.insertionSort_eq (List.sorted_insertionSort _ _)

/-- A date parse realisable by JavaScript date parsing (as in Chrome):
the alternative format "2020-1-9" and the ISO format "2020-01-10" both
parse — to times in their calendar order, which is the reverse of their
lexicographic string order — while "2020-0banana" yields NaN. The two
epoch-millisecond values are Chrome's for these strings in UTC+9. -/
def parseChrome : String → Option ℤ := fun s =>
  if s = "2020-1-9" then some 1578524400000
  else if s = "2020-01-10" then some 1578610800000
  else none

/-- First cycle waypoint: a parseable non-ISO date string. -/
def cxX : TripPoint := ⟨"x", 0, 0, "2020-1-9", TransportType.CAR⟩

/-- Second cycle waypoint: a parseable ISO date string. -/
def cxY : TripPoint := ⟨"y", 0, 0, "2020-01-10", TransportType.CAR⟩

/-- Third cycle waypoint: an unparseable date string lying strictly
between the other two in lexicographic order. -/
def cxZ : TripPoint := ⟨"z", 0, 0, "2020-0banana", TransportType.CAR⟩

/-- Counterexample to claim C3 as stated: with the parse behaviour above,
the comparator orders x before y (by parsed time), y before z and z before
x (by string comparison against the unparseable date), a cycle on three
waypoints with distinct ids; in particular transitivity fails, so the
comparator is not a strict total order on mixes of parseable and
unparseable date strings. -/
theorem robustSort_not_transitive_cx :
    cxX.id ≠ cxY.id ∧ cxY.id ≠ cxZ.id ∧ cxX.id ≠ cxZ.id ∧
    robustSort parseChrome cxX cxY < 0 ∧
    robustSort parseChrome cxY cxZ < 0 ∧
    robustSort parseChrome cxZ cxX < 0 ∧
    ¬ robustSort parseChrome cxX cxZ < 0 := by
  have hyz : ("2020-01-10" : String) < "2020-0banana" :=
    String.lt_iff_toList_lt.mpr (by decide)
  have hzx : ("2020-0banana" : String) < "2020-1-9" :=
    String.lt_iff_toList_lt.mpr (by decide)
  have hpx : parseChrome cxX.date = some 1578524400000 := by decide
  have hpy : parseChrome cxY.date = some 1578610800000 := by decide
  have hpz : parseChrome cxZ.date = none := by decide
  have hxy : robustSort parseChrome cxX cxY < 0 := by
    simp only [robustSort, hpx, hpy]
    norm_num
  have hyz' : robustSort parseChrome cxY cxZ < 0 := by
    have hcmp : strCmp cxY.date cxZ.date = -1 := by
      show strCmp "2020-01-10" "2020-0banana" = -1
      unfold strCmp
      rw [if_pos hyz]
    have htie : strTie cxY cxZ = -1 := by
      unfold strTie
      rw [hcmp]
      norm_num
    simp only [robustSort, hpy, hpz]
    rw [htie]
    norm_num
  have hzx' : robustSort parseChrome cxZ cxX < 0 := by
    have hcmp : strCmp cxZ.date cxX.date = -1 := by
      show strCmp "2020-0banana" "2020-1-9" = -1
      unfold strCmp
      rw [if_pos hzx]
    have htie : strTie cxZ cxX = -1 := by
      unfold strTie
      rw [hcmp]
      norm_num
    simp only [robustSort, hpz, hpx]
    rw [htie]
    norm_num
  have hxz : ¬ robustSort parseChrome cxX cxZ < 0 := by
    have hcmp : strCmp cxX.date cxZ.date = 1 := by
      show strCmp "2020-1-9" "2020-0banana" = 1
      unfold strCmp
      rw [if_neg (asymm hzx), if_neg (by decide : ¬ ("2020-1-9" : String) = "2020-0banana")]
    have htie : strTie cxX cxZ = 1 := by
      unfold strTie
      rw [hcmp]
      norm_num
    simp only [robustSort, hpx, hpz]
    rw [htie]
    norm_num
  exact ⟨by decide, by decide, by decide, hxy, hyz', hzx', hxz⟩

/-- A parse that accepts nothing: every date falls back to string
comparison; it is vacuously monotone. -/
def parseNoneFn : String → Option ℤ := fun _ => none

/-- Witness for the amended C3: the total order conclusions instantiated
at a vacuously monotone parse, three concrete waypoints and a concrete
two-element list. -/
theorem robustSort_total_order_witness :
    (robustSort parseNoneFn cxX cxY < 0 → robustSort parseNoneFn cxY cxZ < 0 →
      robustSort parseNoneFn cxX cxZ < 0) ∧
    (robustSort parseNoneFn cxX cxY < 0 → ¬ robustSort parseNoneFn cxY cxX < 0) ∧
    (cxX.id ≠ cxY.id →
      robustSort parseNoneFn cxX cxY < 0 ∨ robustSort parseNoneFn cxY cxX < 0) ∧
    sortPoints parseNoneFn (sortPoints parseNoneFn [cxY, cxX]) =
      sortPoints parseNoneFn [cxY, cxX] :=
  robustSort_total_order_of_monotone_parse parseNoneFn
    (fun s t ta tb h _ _ => absurd h (by simp [parseNoneFn]))
    cxX cxY cxZ [cxY, cxX]

/-- A segment list is non-empty only when there are at least two points. -/
theorem two_le_of_pathSegments_ne_nil {pts : List TripPoint}
    (hseg : pathSegments pts ≠ []) : 2 ≤ pts.length := by
  by_contra hlt
  exact hseg (pathSegments_eq_nil (by omega))

/-- Counterexample to claim C8 as stated: on the concrete three-point trip
the active segment 0 ends at wpB, yet the transport icon shows
wpA.transportToNext — the departure waypoint's mode — which differs from
wpB.transportToNext, the arrival waypoint's mode. -/
theorem transport_mode_uses_departure_cx :
    (tvHandle [wpA, wpB, wpC] (3/2) 1).transport = some wpA.transportToNext ∧
    ((pathSegments [wpA, wpB, wpC]).getD 0 dfltSegment).data = wpA ∧
    ((pathSegments [wpA, wpB, wpC]).getD 0 dfltSegment).endp = ⟨wpB.lat, wpB.lng⟩ ∧
    wpA.transportToNext ≠ wpB.transportToNext ∧
    (tvHandle [wpA, wpB, wpC] (3/2) 1).transport ≠ some wpB.transportToNext := by
  have hfl : ⌊tvRelative (3/2) 1 / tvSectionHeight 1⌋ = 0 := by
    unfold tvRelative tvSectionHeight
    apply floor_eq_of <;> norm_num [max_def]
  have hlen : (pathSegments [wpA, wpB, wpC]).length = 2 := by
    simp [pathSegments]
  have hsafe : tvSafeIndex (pathSegments [wpA, wpB, wpC]).length (3/2) 1 = 0 := by
    unfold tvSafeIndex tvSectionIndex
    rw [hfl, hlen]
    norm_num
  have hgd : (pathSegments [wpA, wpB, wpC]).getD 0 dfltSegment =
      mkSegment [wpA, wpB, wpC] 0 :=
    pathSegments_getD (by simp) (by simp)
  obtain ⟨hb0, hb1⟩ := tvSafeIndex_bounds (pathSegments [wpA, wpB, wpC]).length
    (3/2) 1 (by norm_num) (by omega)
  have htr : (tvHandle [wpA, wpB, wpC] (3/2) 1).transport =
      some wpA.transportToNext := by
    unfold tvHandle
    rw [if_neg (by omega : ¬ (pathSegments [wpA, wpB, wpC]).length = 0),
      if_pos ⟨hb0, hb1⟩]
    show some _ = _
    rw [hsafe]
    show some ((pathSegments [wpA, wpB, wpC]).getD 0 dfltSegment).data.transportToNext = _
    rw [hgd]
    rfl
  refine ⟨htr, by rw [hgd]; rfl, by rw [hgd]; rfl, by decide, ?_⟩
  rw [htr]
  decide

/-- Claim C8 as amended: while traversing the active segment, TripViewer
shows segment.data.transportToNext — the transport mode stored on the
departure waypoint of the active segment (which denotes the mode used
toward the arrival waypoint) — and the StoryMap variant shows the arrival
stop's transportMode (the mode by which that stop is reached); both
display the transport mode of the active segment itself, not a field of
the arrival waypoint named transportToNext. -/
theorem transport_mode_conventions (pts : List TripPoint) (scrollTop vh : ℚ)
    (stops : List TravelStop) (rects : List Rect) (h : ℚ) (i : ℕ) (t : ℚ)
    (hvh : 0 < vh) (hseg : pathSegments pts ≠ [])
    (hstops : ¬ stops.length = 0) (hrects : ¬ rects.length = 0)
    (hfind : smFindAux (h/2) (rects.zip rects.tail) 0 = some (i, t)) :
    (tvHandle pts scrollTop vh).transport =
      some ((pts.getD (tvSafeIndex (pathSegments pts).length scrollTop vh).toNat
        dfltPoint).transportToNext) ∧
    (smHandleScroll stops rects h).activeTransportMode =
      some ((stops.getD (i + 1) dfltStop).transportMode) := by
  have h2 : 2 ≤ pts.length := two_le_of_pathSegments_ne_nil hseg
  have hlen : (pathSegments pts).length = pts.length - 1 := pathSegments_length h2
  have hlen1 : 1 ≤ (pathSegments pts).length := List.length_pos.mpr hseg
  obtain ⟨hb0, hb1⟩ := tvSafeIndex_bounds (pathSegments pts).length scrollTop vh
    hvh hlen1
  constructor
  · unfold tvHandle
    rw [if_neg (by omega : ¬ (pathSegments pts).length = 0), if_pos ⟨hb0, hb1⟩]
    show some _ = _
    rw [pathSegments_getD h2 (by omega :
      (tvSafeIndex (pathSegments pts).length scrollTop vh).toNat < pts.length - 1)]
    rfl
  · unfold smHandleScroll
    rw [if_neg hstops, if_neg hrects, hfind]

/-- A concrete first travel stop. -/
def stA : TravelStop := ⟨"s1", ⟨5, 6⟩, TransportMode.CAR, 0⟩

/-- A concrete second travel stop, reached by train. -/
def stB : TravelStop := ⟨"s2", ⟨7, 8⟩, TransportMode.TRAIN, 1⟩

/-- A concrete card rectangle with center 1. -/
def rc0 : Rect := ⟨0, 2⟩

/-- A concrete card rectangle with center 10. -/
def rc1 : Rect := ⟨8, 4⟩

/-- Witness for the amended C8: the transport conventions instantiated on
the concrete three-point TripViewer trip and a concrete two-stop StoryMap
configuration whose view center falls between the two card centers. -/
theorem transport_mode_conventions_witness :
    (0 : ℚ) < 1 ∧ pathSegments [wpA, wpB, wpC] ≠ [] ∧
    ¬ ([stA, stB] : List TravelStop).length = 0 ∧
    ¬ ([rc0, rc1] : List Rect).length = 0 ∧
    smFindAux ((10 : ℚ)/2) ([rc0, rc1].zip [rc0, rc1].tail) 0 = some (0, 4/9) ∧
    ((tvHandle [wpA, wpB, wpC] (3/2) 1).transport =
      some (([wpA, wpB, wpC].getD
        (tvSafeIndex (pathSegments [wpA, wpB, wpC]).length (3/2) 1).toNat
        dfltPoint).transportToNext) ∧
    (smHandleScroll [stA, stB] [rc0, rc1] 10).activeTransportMode =
      some (([stA, stB].getD (0 + 1) dfltStop).transportMode)) :=
  ⟨by norm_num, by simp [pathSegments], by simp, by simp,
    by norm_num [smFindAux, rectCenter, rc0, rc1],
    transport_mode_conventions [wpA, wpB, wpC] (3/2) 1 [stA, stB] [rc0, rc1]
      10 0 (4/9) (by norm_num) (by simp [pathSegments]) (by simp) (by simp)
      (by norm_num [smFindAux, rectCenter, rc0, rc1])⟩

/-- Claim C9: with fewer than two waypoints the path builder returns no
segments; on a single-waypoint trip the TripViewer overlay stays at that
waypoint's coordinates for every scroll offset, and the StoryMap handler
parks the vehicle on the sole stop with simulated speed 0 (and leaves the
transport mode untouched) for every card rectangle and container height;
for an empty trip StoryMap renders the distinct no-route screen and its
handler performs no update at all. -/
theorem degenerate_route_states (pts : List TripPoint) (p : TripPoint)
    (scrollTop vh : ℚ) (s : TravelStop) (r : Rect) (h : ℚ)
    (hlen : pts.length < 2) :
    pathSegments pts = [] ∧
    tvVehiclePosition [p] scrollTop vh = some ⟨p.lat, p.lng⟩ ∧
    smHandleScroll [s] [r] h = ⟨some 0, some s.coordinates, some 0, none⟩ ∧
    smRenderGuard [] = SMView.noRoute ∧
    smHandleScroll [] [r] h = ⟨none, none, none, none⟩ := by
  refine ⟨pathSegments_eq_nil hlen, ?_, ?_, rfl, rfl⟩
  · have hnil : pathSegments [p] = [] := pathSegments_eq_nil (by simp)
    unfold tvVehiclePosition tvHandle
    rw [hnil]
    simp
  · unfold smHandleScroll
    rw [if_neg (by simp : ¬ ([s] : List TravelStop).length = 0),
      if_neg (by simp : ¬ ([r] : List Rect).length = 0)]
    show (if r.top ≤ h / 2 then _ else if h / 2 < r.top then _ else _) = _
    by_cases hr : r.top ≤ h / 2
    · rw [if_pos hr]
      simp
    · rw [if_neg hr, if_pos (lt_of_not_le hr)]
      simp

/-- Witness for C9: the degenerate states on the empty point list, a
concrete waypoint, stop, rectangle and offsets. -/
theorem degenerate_route_states_witness :
    ([] : List TripPoint).length < 2 ∧
    (pathSegments [] = [] ∧
      tvVehiclePosition [wpA] 7 1 = some ⟨wpA.lat, wpA.lng⟩ ∧
      smHandleScroll [stA] [rc0] 10 = ⟨some 0, some stA.coordinates, some 0, none⟩ ∧
      smRenderGuard [] = SMView.noRoute ∧
      smHandleScroll [] [rc0] 10 = ⟨none, none, none, none⟩) :=
  ⟨by simp, degenerate_route_states [] wpA 7 1 stA rc0 10 (by simp)⟩
